import Mathlib

/-!
Verification of the clean-architecture products service
(`src/domain/products_repository.py`, `src/interface/products_handler.py`)
against its natural-language specification.

The repository ships only the HTTP handler layer and the abstract repository
contract.  The entity models (`products_entities.py`), the use case
(`products_usecase.py`) and any concrete repository are referenced by the
handlers but absent from the sources, so they are modelled from the spec
(each such definition is marked `Modelled from the spec:`).  Handlers are
translated from `products_handler.py` line by line.
-/

/-- Modelled from the spec: `products_entities.py` is missing from the sources.
Per spec §3, a Product has a unique identifier assigned by storage, a required
name, and additional descriptive attributes (price, description).  The price is
modelled as an integer amount. -/
structure Product where
  id : Int
  name : String
  price : Int
  description : String
  deriving DecidableEq, Repr

/-- Modelled from the spec: `CreateProductRequest` — the fields required to
create a product, excluding the identifier (spec §3). -/
structure CreateBodyProduct where
  name : String
  price : Int
  description : String
  deriving DecidableEq, Repr

/-- Modelled from the spec: `UpdateProductRequest` — the fields that may be
modified, partial or full, excluding the identifier (spec §3).  Each field is
optional; an absent field leaves the stored value untouched. -/
structure UpdateBodyProduct where
  name : Option String
  price : Option Int
  description : Option String
  deriving DecidableEq, Repr

/-- The `PaginatedProductList` model from `products_entities.py` (missing from
the sources): the ordered items of one page plus the count of the entire
unpaged collection (spec §3). -/
structure PaginatedProductList where
  items : List Product
  total_items : Nat
  deriving DecidableEq, Repr

/-- The state owned by the concrete storage implementation: the full ordered
collection of products. -/
structure Store where
  products : List Product
  deriving DecidableEq, Repr

/-- Spec §7 error taxonomy: NotFound, ValidationError, StorageError. -/
inductive DomainError where
  | notFound
  | validationError (msg : String)
  | storageError (msg : String)
  deriving DecidableEq, Repr

/-- Python `str(e)` applied to a domain error, as used by the create handler
when it builds `HTTPException(status_code=400, detail=str(e))`. -/
def errStr : DomainError → String
  | DomainError.notFound => "Product not found"
  | DomainError.validationError m => m
  | DomainError.storageError m => m

/-- The observable outcome of one handler invocation: a successful response
with a status code and body, an `HTTPException` raised deliberately by the
handler, or an exception propagated out of the handler uncaught. -/
inductive HandlerOutcome (α : Type) where
  | response (status : Nat) (body : α)
  | httpError (status : Nat) (detail : String)
  | raised (e : DomainError)
  deriving DecidableEq, Repr

/-- Python list slice `l[start:stop]` for the non-negative indices produced by
the handler (`page ≥ 1`, `size_page ≥ 1` are enforced by the route's Query
validators, so `start_idx ≥ 0` and `stop = start + size_page ≥ start`). -/
def pySlice {α : Type} (l : List α) (start stop : Nat) : List α :=
  (l.drop start).take (stop - start)

/-- Modelled from the spec: the concrete repository is missing from the
sources; `products_repository.py` only fixes the abstract contract
`get_products() -> List[Product]` and spec §4.1 says it returns all products
in a stable order.  Modelled as the store's full ordered list. -/
def ProductsRepository.get_products (s : Store) : List Product :=
  s.products

/-- Modelled from the spec: `products_usecase.py` is missing from the sources;
spec §4.2 says each use-case method only forwards to the repository method of
the same name. -/
def ProductsUseCase.get_products (s : Store) : List Product :=
  ProductsRepository.get_products s

/-- Lines 30-38 of `products_handler.py`: the pagination arithmetic applied to
the full product list.  `start_idx = (page - 1) * size_page`,
`end_idx = start_idx + size_page`, items are the Python slice
`all_products[start_idx:end_idx]`, `total_items = len(all_products)`. -/
def paginate (all_products : List Product) (page size_page : Nat) : PaginatedProductList :=
  let start_idx := (page - 1) * size_page
  let end_idx := start_idx + size_page
  { items := pySlice all_products start_idx end_idx
    total_items := all_products.length }

/-- The `GET /products` handler (`products_handler.py` lines 15-38): fetch the
full collection from the use case and paginate it. -/
def get_products (s : Store) (page size_page : Nat) : PaginatedProductList :=
  paginate (ProductsUseCase.get_products s) page size_page

/-- A five-product store whose identifiers are [1,2,3,4,5], matching the
scenario in spec §8. -/
def fiveProducts : Store :=
  ⟨[⟨1, "p1", 10, "d1"⟩, ⟨2, "p2", 20, "d2"⟩, ⟨3, "p3", 30, "d3"⟩,
    ⟨4, "p4", 40, "d4"⟩, ⟨5, "p5", 50, "d5"⟩]⟩

theorem get_products_items_length_nat (s : Store) (page size_page : Nat) :
    (get_products s page size_page).items.length
      = min size_page (s.products.length - (page - 1) * size_page) := by
  simp [get_products, paginate, pySlice, ProductsUseCase.get_products,
    ProductsRepository.get_products]

/-- C1: for every collection and valid `page ≥ 1`, `1 ≤ size_page ≤ 100`, the
number of items on the returned page is
`min(size_page, max(0, total_items - (page-1)*size_page))`; in particular on
the collection with identifiers [1,2,3,4,5], `page=2, size_page=2` returns the
items with identifiers [3,4] and `total_items = 5`. -/
theorem get_products_page_length (s : Store) (page size_page : Nat)
    (hpage : 1 ≤ page) (hs1 : 1 ≤ size_page) (hs2 : size_page ≤ 100) :
    (((get_products s page size_page).items.length : Int)
        = min (size_page : Int)
            (max 0 ((s.products.length : Int) - ((page : Int) - 1) * (size_page : Int))))
    ∧ (get_products fiveProducts 2 2).items.map Product.id = [3, 4]
    ∧ (get_products fiveProducts 2 2).total_items = 5 := by
  refine ⟨?_, by decide, by decide⟩
  have h := get_products_items_length_nat s page size_page
  have hcast : ((page : Int) - 1) * (size_page : Int) = (((page - 1) * size_page : Nat) : Int) := by
    have : (1 : Int) ≤ (page : Int) := by exact_mod_cast hpage
    push_cast [Nat.cast_sub hpage]
    ring
  rw [hcast, h]
  omega

/-- Witness for C1 at the spec's scenario: the page length formula evaluated at
the five-product collection with `page=2, size_page=2`. -/
theorem get_products_page_length_witness :
    (get_products fiveProducts 2 2).items.length = 2 := by
  have h := (get_products_page_length fiveProducts 2 2
    (by norm_num) (by norm_num) (by norm_num)).1
  norm_num [fiveProducts] at h
  exact_mod_cast h

/-- C2: requesting a page whose start index is at or beyond the collection
length returns an empty items list with the full collection count, not an
error. -/
theorem get_products_beyond_last_page_empty (s : Store) (page size_page : Nat)
    (hpage : 1 ≤ page) (hs1 : 1 ≤ size_page) (hs2 : size_page ≤ 100)
    (hbeyond : s.products.length ≤ (page - 1) * size_page) :
    (get_products s page size_page).items = []
    ∧ (get_products s page size_page).total_items = s.products.length := by
  constructor
  · simp [get_products, paginate, pySlice, ProductsUseCase.get_products,
      ProductsRepository.get_products, List.drop_eq_nil_of_le hbeyond]
  · rfl

/-- Witness for C2 at the spec's scenario: `page=10, size_page=10` on the
five-item collection returns `items=[]` and `total_items=5`. -/
theorem get_products_beyond_last_page_empty_witness :
    (get_products fiveProducts 10 10).items = []
    ∧ (get_products fiveProducts 10 10).total_items = 5 :=
  get_products_beyond_last_page_empty fiveProducts 10 10
    (by norm_num) (by norm_num) (by norm_num) (by decide)

/-- C3: `total_items` always equals the count of the full unpaged collection,
independent of `page` and `size_page`. -/
theorem get_products_total_items_full_count (s : Store) (page size_page : Nat)
    (hpage : 1 ≤ page) (hs1 : 1 ≤ size_page) (hs2 : size_page ≤ 100) :
    (get_products s page size_page).total_items = s.products.length
    ∧ ∀ page' size_page', (get_products s page' size_page').total_items
        = (get_products s page size_page).total_items :=
  ⟨rfl, fun _ _ => rfl⟩

/-- Witness for C3: evaluated on the five-product collection at
`page=3, size_page=7`. -/
theorem get_products_total_items_full_count_witness :
    (get_products fiveProducts 3 7).total_items = 5
    ∧ (get_products fiveProducts 1 100).total_items = (get_products fiveProducts 3 7).total_items :=
  ⟨(get_products_total_items_full_count fiveProducts 3 7
      (by norm_num) (by norm_num) (by norm_num)).1,
   (get_products_total_items_full_count fiveProducts 3 7
      (by norm_num) (by norm_num) (by norm_num)).2 1 100⟩

/-- C4: every returned page has at most `size_page` items, and the items are
the contiguous slice of the full ordered collection whose position is
determined by `(page, size_page)`: the collection decomposes as the
`start_idx`-element prefix, then the page items, then the tail from
`start_idx + size_page`. -/
theorem get_products_items_slice_invariant (s : Store) (page size_page : Nat)
    (hpage : 1 ≤ page) (hs1 : 1 ≤ size_page) (hs2 : size_page ≤ 100) :
    (get_products s page size_page).items.length ≤ size_page
    ∧ s.products
        = s.products.take ((page - 1) * size_page)
          ++ (get_products s page size_page).items
          ++ s.products.drop ((page - 1) * size_page + size_page) := by
  constructor
  · rw [get_products_items_length_nat]
    exact Nat.min_le_left _ _
  · have hitems : (get_products s page size_page).items
        = (s.products.drop ((page - 1) * size_page)).take size_page := by
      simp [get_products, paginate, pySlice, ProductsUseCase.get_products,
        ProductsRepository.get_products]
    rw [hitems, List.append_assoc]
    conv_lhs => rw [← List.take_append_drop ((page - 1) * size_page) s.products]
    congr 1
    conv_lhs => rw [← List.take_append_drop size_page
      (s.products.drop ((page - 1) * size_page))]
    congr 1
    rw [List.drop_drop]

/-- Witness for C4 at the five-product collection with `page=2, size_page=2`. -/
theorem get_products_items_slice_invariant_witness :
    (get_products fiveProducts 2 2).items.length ≤ 2
    ∧ fiveProducts.products
        = fiveProducts.products.take 2
          ++ (get_products fiveProducts 2 2).items
          ++ fiveProducts.products.drop 4 :=
  get_products_items_slice_invariant fiveProducts 2 2
    (by norm_num) (by norm_num) (by norm_num)

/-- Modelled from the spec: identifier assignment by the missing concrete
storage.  Spec §4.1 only requires a fresh unique identifier; modelled as one
greater than the largest identifier in the store (1 on an empty store). -/
def nextId (l : List Product) : Int :=
  1 + (l.map Product.id).foldr max 0

/-- Modelled from the spec: the missing concrete implementation of
`ProductsRepository.create_product` (contract at
`products_repository.py` lines 18-20) — persists a new product built from the
request fields, assigns a fresh unique identifier, and returns the stored
entity together with the updated store. -/
def ProductsRepository.create_product (s : Store) (product : CreateBodyProduct) :
    Product × Store :=
  let p : Product :=
    { id := nextId s.products
      name := product.name
      price := product.price
      description := product.description }
  (p, ⟨s.products ++ [p]⟩)

/-- Modelled from the spec: the missing concrete implementation of
`ProductsRepository.get_product_by_id` (contract at
`products_repository.py` lines 14-16) — the first product with the given
identifier, or the falsy `None` when absent (spec §9 notes the handlers
detect "not found" by a falsy return value). -/
def ProductsRepository.get_product_by_id (s : Store) (product_id : Int) : Option Product :=
  s.products.find? (fun p => p.id == product_id)

/-- Applying an `UpdateProductRequest` to a stored product: each supplied
field replaces the stored one, absent fields and the identifier are kept
(spec §3 and §8: updating changes only the supplied fields). -/
def applyUpdate (update_body : UpdateBodyProduct) (p : Product) : Product :=
  { id := p.id
    name := update_body.name.getD p.name
    price := update_body.price.getD p.price
    description := update_body.description.getD p.description }

/-- Modelled from the spec: the missing concrete implementation of
`ProductsRepository.update_product` (contract at
`products_repository.py` lines 22-24) — applies the field changes to the
product with that identifier and returns the updated entity, or the falsy
`None` when the identifier is absent. -/
def ProductsRepository.update_product (s : Store) (product_id : Int)
    (update_body : UpdateBodyProduct) : Option Product × Store :=
  match s.products.find? (fun p => p.id == product_id) with
  | none => (none, s)
  | some p =>
      (some (applyUpdate update_body p),
       ⟨s.products.map (fun q => if q.id == product_id then applyUpdate update_body q else q)⟩)

/-- Modelled from the spec: the missing concrete implementation of
`ProductsRepository.delete_product` (contract at
`products_repository.py` lines 26-28, return type `None`) — removes the
product with that identifier; removal of an absent identifier leaves the
store unchanged (the `void` contract gives the caller nothing to check). -/
def ProductsRepository.delete_product (s : Store) (product_id : Int) : Store :=
  ⟨s.products.filter (fun p => p.id != product_id)⟩

/-- Modelled from the spec: `ProductsUseCase.get_product_by_id`, a forwarding
call per spec §4.2. -/
def ProductsUseCase.get_product_by_id (s : Store) (product_id : Int) : Option Product :=
  ProductsRepository.get_product_by_id s product_id

/-- Modelled from the spec: `ProductsUseCase.create_product`, a forwarding
call per spec §4.2. -/
def ProductsUseCase.create_product (s : Store) (product : CreateBodyProduct) :
    Product × Store :=
  ProductsRepository.create_product s product

/-- Modelled from the spec: `ProductsUseCase.update_product`, a forwarding
call per spec §4.2. -/
def ProductsUseCase.update_product (s : Store) (product_id : Int)
    (update_body : UpdateBodyProduct) : Option Product × Store :=
  ProductsRepository.update_product s product_id update_body

/-- Modelled from the spec: `ProductsUseCase.delete_product`, a forwarding
call per spec §4.2. -/
def ProductsUseCase.delete_product (s : Store) (product_id : Int) : Store :=
  ProductsRepository.delete_product s product_id

/-- Lines 56-64 of `products_handler.py`, as a function of the use-case call's
outcome: the handler has no try/except, so a raised exception propagates; a
truthy product is returned with 200; a falsy result raises
`HTTPException(404, "Product not found")`. -/
def get_product_result (result : Except DomainError (Option Product)) :
    HandlerOutcome Product :=
  match result with
  | Except.error e => HandlerOutcome.raised e
  | Except.ok (some product) => HandlerOutcome.response 200 product
  | Except.ok none => HandlerOutcome.httpError 404 "Product not found"

/-- Lines 82-88 of `products_handler.py`, as a function of the use-case call's
outcome: the body is wrapped in `try/except Exception`, so every raised
exception — of any kind — is converted into
`HTTPException(400, str(e))`; a successful creation returns 201. -/
def create_product_result (result : Except DomainError Product) :
    HandlerOutcome Product :=
  match result with
  | Except.ok new_product => HandlerOutcome.response 201 new_product
  | Except.error e => HandlerOutcome.httpError 400 (errStr e)

/-- Lines 108-116 of `products_handler.py`, as a function of the use-case
call's outcome: no try/except, truthy result returned with 200, falsy result
mapped to `HTTPException(404, "Product not found")`. -/
def update_product_result (result : Except DomainError (Option Product)) :
    HandlerOutcome Product :=
  match result with
  | Except.error e => HandlerOutcome.raised e
  | Except.ok (some updated_product) => HandlerOutcome.response 200 updated_product
  | Except.ok none => HandlerOutcome.httpError 404 "Product not found"

/-- Lines 134-138 of `products_handler.py`, as a function of the use-case
call's outcome: no try/except and no check of any kind — whenever the call
returns (its value is `None` either way), the handler answers
`JSONResponse({"message": "Product deleted successfully"})` with status 200. -/
def delete_product_result (result : Except DomainError Unit) :
    HandlerOutcome String :=
  match result with
  | Except.error e => HandlerOutcome.raised e
  | Except.ok _ => HandlerOutcome.response 200 "Product deleted successfully"

/-- Lines 15-38 of `products_handler.py` as a function of the use-case call's
outcome: no try/except, a successful call returns the paginated list with
status 200. -/
def get_products_result (result : Except DomainError (List Product))
    (page size_page : Nat) : HandlerOutcome PaginatedProductList :=
  match result with
  | Except.error e => HandlerOutcome.raised e
  | Except.ok all_products => HandlerOutcome.response 200 (paginate all_products page size_page)

/-- The `GET /products/{product_id}` handler (`products_handler.py` lines
41-64) on a store whose lookup returns without raising. -/
def get_product (s : Store) (product_id : Int) : HandlerOutcome Product :=
  get_product_result (Except.ok (ProductsUseCase.get_product_by_id s product_id))

/-- The `POST /products` handler (`products_handler.py` lines 67-88) on a
store whose creation succeeds, paired with the updated store. -/
def create_product (s : Store) (product_body : CreateBodyProduct) :
    HandlerOutcome Product × Store :=
  let r := ProductsUseCase.create_product s product_body
  (create_product_result (Except.ok r.1), r.2)

/-- The `PUT /products/{product_id}` handler (`products_handler.py` lines
91-116) on a store whose update call returns without raising. -/
def update_product (s : Store) (product_id : Int) (update_body : UpdateBodyProduct) :
    HandlerOutcome Product :=
  update_product_result (Except.ok (ProductsUseCase.update_product s product_id update_body).1)

/-- The `DELETE /products/{product_id}` handler (`products_handler.py` lines
119-138) on a store whose delete call returns without raising, paired with
the updated store. -/
def delete_product (s : Store) (product_id : Int) : HandlerOutcome String × Store :=
  (delete_product_result (Except.ok ()), ProductsUseCase.delete_product s product_id)

theorem le_foldr_max (x : Int) (l : List Int) (a : Int) (hx : x ∈ l) :
    x ≤ l.foldr max a := by
  induction l with
  | nil => cases hx
  | cons y ys ih =>
      rcases List.mem_cons.mp hx with h | h
      · subst h; exact le_max_left _ _
      · exact le_trans (ih h) (le_max_right _ _)

theorem nextId_not_id_of_mem (l : List Product) (p : Product) (hp : p ∈ l) :
    p.id ≠ nextId l := by
  have h : p.id ≤ (l.map Product.id).foldr max 0 :=
    le_foldr_max p.id (l.map Product.id) 0 (List.mem_map_of_mem Product.id hp)
  unfold nextId
  omega

theorem find?_append_of_none {α : Type} (f : α → Bool) (l l' : List α)
    (h : l.find? f = none) : (l ++ l').find? f = l'.find? f := by
  induction l with
  | nil => rfl
  | cons y ys ih =>
      rw [List.find?_cons] at h
      cases hy : f y with
      | true => rw [hy] at h; cases h
      | false =>
          rw [hy] at h
          rw [List.cons_append, List.find?_cons, hy]
          exact ih h

/-- C5 is contradicted by the handler: `delete_product` calls the use case and
then unconditionally returns the 200 confirmation message; it performs no
existence check and never raises `HTTPException(404)`, contrary to its own
docstring (line 132 of `products_handler.py`) and to the claim.  In
particular, deleting identifier 1 from an empty collection — where no product
with that identifier exists — still answers 200. -/
theorem delete_product_always_succeeds :
    (∀ (s : Store) (product_id : Int),
        (delete_product s product_id).1
          = HandlerOutcome.response 200 "Product deleted successfully")
    ∧ (∀ p ∈ (Store.mk []).products, p.id ≠ 1)
    ∧ (delete_product (Store.mk []) 1).1
        ≠ HandlerOutcome.httpError 404 "Product not found" := by
  refine ⟨fun s product_id => rfl, by simp, by decide⟩

/-- C6 counterexample: a StorageError raised during creation is caught by the
create handler's blanket `except Exception` and converted into
`HTTPException(400, str(e))` instead of being propagated. -/
theorem create_product_swallows_storage_error :
    create_product_result (Except.error (DomainError.storageError "database unavailable"))
      = HandlerOutcome.httpError 400 "database unavailable"
    ∧ create_product_result (Except.error (DomainError.storageError "database unavailable"))
      ≠ HandlerOutcome.raised (DomainError.storageError "database unavailable") :=
  ⟨rfl, by decide⟩

/-- C6 amended: every handler except creation propagates a raised StorageError
unchanged (they have no exception handling); the create handler alone catches
every exception, StorageError included, and converts it into a 400 response
whose detail is `str(e)`. -/
theorem storage_error_propagation_amended (m : String) (page size_page : Nat) :
    get_products_result (Except.error (DomainError.storageError m)) page size_page
      = HandlerOutcome.raised (DomainError.storageError m)
    ∧ get_product_result (Except.error (DomainError.storageError m))
      = HandlerOutcome.raised (DomainError.storageError m)
    ∧ update_product_result (Except.error (DomainError.storageError m))
      = HandlerOutcome.raised (DomainError.storageError m)
    ∧ delete_product_result (Except.error (DomainError.storageError m))
      = HandlerOutcome.raised (DomainError.storageError m)
    ∧ create_product_result (Except.error (DomainError.storageError m))
      = HandlerOutcome.httpError 400 (errStr (DomainError.storageError m)) :=
  ⟨rfl, rfl, rfl, rfl, rfl⟩

/-- C7: the `GET /products/{id}` handler answers 404 "Product not found"
exactly when no product with the requested identifier exists, and otherwise
answers 200 with a product of the collection bearing that identifier. -/
theorem get_product_status_by_existence (s : Store) (product_id : Int) :
    ((∀ p ∈ s.products, p.id ≠ product_id) →
        get_product s product_id = HandlerOutcome.httpError 404 "Product not found")
    ∧ (∀ p, p ∈ s.products → p.id = product_id →
        ∃ q, q ∈ s.products ∧ q.id = product_id
          ∧ get_product s product_id = HandlerOutcome.response 200 q) := by
  constructor
  · intro hnone
    have h : s.products.find? (fun p => p.id == product_id) = none := by
      rw [List.find?_eq_none]
      intro p hp
      simpa using hnone p hp
    simp [get_product, get_product_result, ProductsUseCase.get_product_by_id,
      ProductsRepository.get_product_by_id, h]
  · intro p hp hid
    have hne : s.products.find? (fun q => q.id == product_id) ≠ none := by
      rw [Ne, List.find?_eq_none]
      intro hall
      exact absurd (by simpa using hid) (hall p hp)
    rcases Option.ne_none_iff_exists'.mp hne with ⟨q, hq⟩
    refine ⟨q, List.mem_of_find?_eq_some hq, by simpa using List.find?_some hq, ?_⟩
    simp [get_product, get_product_result, ProductsUseCase.get_product_by_id,
      ProductsRepository.get_product_by_id, hq]

/-- Witness for C7 on the five-product collection: identifier 3 exists and is
returned with 200; identifier 99 does not exist and yields 404. -/
theorem get_product_status_by_existence_witness :
    get_product fiveProducts 99 = HandlerOutcome.httpError 404 "Product not found"
    ∧ ∃ q, q ∈ fiveProducts.products ∧ q.id = 3
        ∧ get_product fiveProducts 3 = HandlerOutcome.response 200 q :=
  ⟨(get_product_status_by_existence fiveProducts 99).1 (by decide),
   (get_product_status_by_existence fiveProducts 3).2
     ⟨3, "p3", 30, "d3"⟩ (by decide) (by decide)⟩

/-- C8: the `PUT /products/{id}` handler answers 404 "Product not found"
when no product with the requested identifier exists, and otherwise answers
200 with the updated entity — the stored product with the supplied fields
replaced. -/
theorem update_product_status_by_existence (s : Store) (product_id : Int)
    (update_body : UpdateBodyProduct) :
    ((∀ p ∈ s.products, p.id ≠ product_id) →
        update_product s product_id update_body
          = HandlerOutcome.httpError 404 "Product not found")
    ∧ (∀ p, p ∈ s.products → p.id = product_id →
        ∃ q, q ∈ s.products ∧ q.id = product_id
          ∧ update_product s product_id update_body
              = HandlerOutcome.response 200 (applyUpdate update_body q)) := by
  constructor
  · intro hnone
    have h : s.products.find? (fun p => p.id == product_id) = none := by
      rw [List.find?_eq_none]
      intro p hp
      simpa using hnone p hp
    simp [update_product, update_product_result, ProductsUseCase.update_product,
      ProductsRepository.update_product, h]
  · intro p hp hid
    have hne : s.products.find? (fun q => q.id == product_id) ≠ none := by
      rw [Ne, List.find?_eq_none]
      intro hall
      exact absurd (by simpa using hid) (hall p hp)
    rcases Option.ne_none_iff_exists'.mp hne with ⟨q, hq⟩
    refine ⟨q, List.mem_of_find?_eq_some hq, by simpa using List.find?_some hq, ?_⟩
    simp [update_product, update_product_result, ProductsUseCase.update_product,
      ProductsRepository.update_product, hq]

/-- Witness for C8 on the five-product collection: updating identifier 99
yields 404; updating identifier 2 with a new name yields 200 with the renamed
product. -/
theorem update_product_status_by_existence_witness :
    update_product fiveProducts 99 ⟨some "renamed", none, none⟩
      = HandlerOutcome.httpError 404 "Product not found"
    ∧ ∃ q, q ∈ fiveProducts.products ∧ q.id = 2
        ∧ update_product fiveProducts 2 ⟨some "renamed", none, none⟩
            = HandlerOutcome.response 200 (applyUpdate ⟨some "renamed", none, none⟩ q) :=
  ⟨(update_product_status_by_existence fiveProducts 99 ⟨some "renamed", none, none⟩).1
     (by decide),
   (update_product_status_by_existence fiveProducts 2 ⟨some "renamed", none, none⟩).2
     ⟨2, "p2", 20, "d2"⟩ (by decide) (by decide)⟩

/-- C9: creating a product and then fetching it by the identifier returned
from creation yields the stored product, whose non-identifier fields all
equal the creation request's fields; the `GET /products/{id}` handler returns
it with 200. -/
theorem create_then_get_roundtrip (s : Store) (product_body : CreateBodyProduct) :
    ProductsUseCase.get_product_by_id (ProductsUseCase.create_product s product_body).2
        (ProductsUseCase.create_product s product_body).1.id
      = some (ProductsUseCase.create_product s product_body).1
    ∧ (ProductsUseCase.create_product s product_body).1.name = product_body.name
    ∧ (ProductsUseCase.create_product s product_body).1.price = product_body.price
    ∧ (ProductsUseCase.create_product s product_body).1.description
        = product_body.description
    ∧ get_product (ProductsUseCase.create_product s product_body).2
        (ProductsUseCase.create_product s product_body).1.id
      = HandlerOutcome.response 200 (ProductsUseCase.create_product s product_body).1 := by
  have hfind : ProductsUseCase.get_product_by_id
      (ProductsUseCase.create_product s product_body).2
      (ProductsUseCase.create_product s product_body).1.id
      = some (ProductsUseCase.create_product s product_body).1 := by
    show (s.products
        ++ [(ProductsUseCase.create_product s product_body).1]).find?
          (fun p => p.id == nextId s.products) = _
    rw [find?_append_of_none]
    · simp [ProductsUseCase.create_product, ProductsRepository.create_product]
    · rw [List.find?_eq_none]
      intro p hp
      simpa using nextId_not_id_of_mem s.products p hp
  refine ⟨hfind, rfl, rfl, rfl, ?_⟩
  simp [get_product, get_product_result, hfind]

/-- The five operations declared by the abstract class `ProductsRepository`
(`products_repository.py` lines 9-28), each paired with whether it is
decorated `@abstractmethod` and left unimplemented — which all five are. -/
def ProductsRepository.methods : List (String × Bool) :=
  [("get_products", true), ("get_product_by_id", true), ("create_product", true),
   ("update_product", true), ("delete_product", true)]

/-- The names of the unoverridden abstract methods of the class. -/
def ProductsRepository.abstractmethods : List String :=
  (ProductsRepository.methods.filter (fun m => m.2)).map (fun m => m.1)

/-- Outcome of evaluating a Python class instantiation at module import. -/
inductive PyInit where
  | ok
  | typeError (msg : String)
  deriving DecidableEq, Repr

/-- Modelled from the spec: Python ABC semantics, external to the sources —
calling a class whose set of unoverridden abstract methods is non-empty does
not construct an object but raises `TypeError`. -/
def instantiateABC (abstractmethods : List String) : PyInit :=
  if abstractmethods.isEmpty then PyInit.ok
  else PyInit.typeError "Cannot instantiate abstract class ProductsRepository"

/-- Line 11 of `products_handler.py`, executed at module import:
`products_repository = ProductsRepository(db_url)` — an instantiation of the
abstract base class itself, with no concrete subclass involved. -/
def products_repository_init : PyInit :=
  instantiateABC ProductsRepository.abstractmethods

/-- C10: all five operations of `ProductsRepository` are abstract, so the
module-level `ProductsRepository(db_url)` call raises `TypeError` instead of
producing a repository instance: the working-repository precondition of every
endpoint is never established by the program as written. -/
theorem products_repository_instantiation_fails :
    ProductsRepository.methods.length = 5
    ∧ (∀ m ∈ ProductsRepository.methods, m.2 = true)
    ∧ products_repository_init
        = PyInit.typeError "Cannot instantiate abstract class ProductsRepository"
    ∧ products_repository_init ≠ PyInit.ok := by
  refine ⟨rfl, by decide, rfl, by decide⟩
